import Mathlib

/-!
Verification development for the PRSim repository.

The repository implements a roleplay chatbot: a `GeminiChatSession`
(src/gemini_chat_service.py) holds a persona, a list of goal questions,
a parallel list of boolean goal flags, a transcript, and a cursor into
the goal list.  The FastAPI layer (src/main.py) holds a session registry
and a scenario store loaded from a JSON document.

This file shallowly embeds those parts of the source.  The external
generative-model call is modelled by an explicit oracle outcome
(`OracleResult`), since the repository treats it as an opaque text
oracle; the missing-API-key configuration is an explicit boolean
parameter.  Python strings are Lean `String`s; `str.lower` is modelled
character-wise, `str.split()` as whitespace splitting that drops empty
words, and the `in` substring test as contiguous-sublist containment on
the character lists.
-/

namespace PRSim

/-- Python `s.lower()` of a string, as its list of characters.
Character-wise lowering, as the source uses it only on ASCII text. -/
def pyLower (s : String) : List Char := s.data.map Char.toLower

/-- Helper for `splitWords`: accumulates the current (reversed) word. -/
def splitWordsAux : List Char → List Char → List (List Char)
  | [], acc => if acc.isEmpty then [] else [acc.reverse]
  | c :: rest, acc =>
    if c.isWhitespace then
      if acc.isEmpty then splitWordsAux rest [] else acc.reverse :: splitWordsAux rest []
    else splitWordsAux rest (c :: acc)

/-- Python `s.split()` with no argument: whitespace-delimited words,
empty words dropped. -/
def splitWords (l : List Char) : List (List Char) := splitWordsAux l []

/-- Python `needle in hay` for strings: contiguous substring test. -/
def containsSub : List Char → List Char → Bool
  | needle, [] => needle.isEmpty
  | needle, c :: t => needle.isPrefixOf (c :: t) || containsSub needle t

/-- The per-question keyword test of `_update_goal_status`
(src/gemini_chat_service.py lines 155-166): lower the goal question,
split into words, and succeed when some word longer than 3 characters
occurs in the lowered customer-service response. -/
def goalMatches (goal_q msg : String) : Bool :=
  (splitWords (pyLower goal_q)).any fun kw =>
    decide (3 < kw.length) && containsSub kw (pyLower msg)

/-- The `chatActor` record of a scenario (src/main.py `ChatActor`). -/
structure ChatActor where
  customerName : String
  backstory : String
  tone : String
  goalQuestions : List String
deriving DecidableEq

/-- One transcript entry: the source uses dicts `{"role": _, "text": _}`. -/
structure ChatEntry where
  role : String
  text : String
deriving DecidableEq

/-- State of `GeminiChatSession` (src/gemini_chat_service.py). -/
structure Session where
  session_id : String
  name : String
  backstory : String
  tone : String
  goal_questions : List String
  goals_answered : List Bool
  chat_history : List ChatEntry
  current_question_index : Nat
deriving DecidableEq

/-- `GeminiChatSession.__init__` (src/gemini_chat_service.py lines 37-56). -/
def Session.init (sid : String) (actor : ChatActor) : Session where
  session_id := sid
  name := actor.customerName
  backstory := actor.backstory
  tone := actor.tone
  goal_questions := actor.goalQuestions
  goals_answered := List.replicate actor.goalQuestions.length false
  chat_history := []
  current_question_index := 0

/-- Outcome of one call to the external generative model: either a reply
text, or a raised exception (transport/auth/quota failure). -/
inductive OracleResult where
  | ok (text : String)
  | failure
deriving DecidableEq

/-- Static reply of `_call_gemini_api` when the API key is not set. -/
def apiKeyMissingMessage : String := "AI service is not available (API key missing)."

/-- Static reply of `_call_gemini_api` when the model call raises. -/
def fallbackMessage : String :=
  "I'm sorry, I'm having trouble connecting to the AI right now. Please try again later."

/-- `GeminiChatSession._call_gemini_api` (lines 81-100): returns the
key-missing text when no API key is configured, the model's reply text
on success, and the fallback apology when the call raises.  The prompt
does not influence which branch is taken. -/
def call_gemini_api (hasKey : Bool) (outcome : OracleResult) (_prompt : String) : String :=
  if !hasKey then apiKeyMissingMessage
  else
    match outcome with
    | OracleResult.ok t => t
    | OracleResult.failure => fallbackMessage

/-- The dict returned by `start_new_chat_session` and `send_message`. -/
structure TurnResult where
  ai_response : String
  goals_answered : List Bool
deriving DecidableEq

/-- The opening prompt built in `start_new_chat_session` (lines 62-68);
the two final literals are adjacent in the source, with no space between
"agent." and "Please". -/
def initial_prompt (s : Session) : String :=
  "You are a customer with the following backstory: " ++ s.backstory ++ ". " ++
  "Your tone is " ++ s.tone ++ ". " ++
  "Your goal is to get more information from the PR agent." ++
  "Please start the conversation. Just give your first message to the agent."

/-- `GeminiChatSession.start_new_chat_session` (lines 58-79): send the
opening prompt to the oracle and append the reply under the persona's
role. -/
def Session.start_new_chat_session (s : Session) (hasKey : Bool) (outcome : OracleResult) :
    Session × TurnResult :=
  let resp := call_gemini_api hasKey outcome (initial_prompt s)
  let s1 : Session := { s with chat_history := s.chat_history ++ [⟨s.name, resp⟩] }
  (s1, ⟨resp, s1.goals_answered⟩)

/-- The loop body of `_update_goal_status` (lines 155-166), indexed from
`n`: entry `i` of the flags becomes `flags[i] or goalMatches goals[n+i] msg`.
The source iterates the goal questions and sets `goals_answered[i]` in
place; on the session's invariant domain (equal list lengths, which
holds for every session the program builds) this recursion computes the
same final list. -/
def updateFrom (msg : String) (goals : List String) : Nat → List Bool → List Bool
  | _, [] => []
  | n, a :: rest =>
    (a || goalMatches (goals.getD n ("")) msg) :: updateFrom msg goals (n + 1) rest

/-- `GeminiChatSession._update_goal_status` (lines 155-166). -/
def update_goal_status (goals : List String) (flags : List Bool) (msg : String) : List Bool :=
  updateFrom msg goals 0 flags

/-- Text before the quoted question in the goal-pursuit directive. -/
def askHead : String := "Your next action: Ask the question: '"

/-- Text after the quoted question in the goal-pursuit directive
(the closing quote line plus the adjacent `Formulate` line). -/
def askTail : String :=
  "'.\nFormulate your response as the customer asking this specific question, maintaining your tone.\n"

/-- The goal-pursuit directive appended by `_construct_prompt` when a
goal is still unanswered (two adjacent `prompt +=` lines). -/
def askDirective (q : String) : String := askHead ++ (q ++ askTail)

/-- The dead-code fallback directive of `_construct_prompt`'s for-else. -/
def satisfiedDirective : String :=
  "Your next action: You have asked all your questions, but are you satisfied with the answers? Respond to the last customer service message, or conclude the conversation politely.\n"

/-- The closing directive of `_construct_prompt` when every goal flag is
true. -/
def closingDirective : String :=
  "Your next action: You have received answers to all your questions. End the chat politely and professionally.\n"

/-- The `for i, answered in enumerate(self.goals_answered): if not answered: break`
search of `_construct_prompt`: index of the first false flag. -/
def firstUnanswered : List Bool → Option Nat
  | [] => none
  | false :: _ => some 0
  | true :: rest => (firstUnanswered rest).map (· + 1)

/-- Directive selection and cursor update of `_construct_prompt`
(lines 131-153).  Returns the directive text appended to the prompt and
the new `current_question_index`.  Out-of-range list reads (impossible
under the session invariant of equal lengths) are modelled with
defaults. -/
def constructDirective (goals : List String) (flags : List Bool) (idx : Nat) : String × Nat :=
  if (((goals.zip flags).filter fun p => !p.2).map Prod.fst).isEmpty then
    (closingDirective, idx)
  else if idx < goals.length ∧ flags.getD idx false = false then
    (askDirective (goals.getD idx ("")), idx)
  else
    match firstUnanswered flags with
    | some i => (askDirective (goals.getD i ("")), i)
    | none => (satisfiedDirective, idx)

/-- The persona/tone/instruction header of `_construct_prompt`. -/
def promptHeader (s : Session) : String :=
  "You are a customer named '" ++ s.name ++ "'. Your backstory is: '" ++ s.backstory ++ "'.\n" ++
  "Your current goal is to get answers to the following questions: " ++
    String.intercalate ("; ") s.goal_questions ++ ".\n" ++
  "Maintain a " ++ s.tone ++ " tone throughout the conversation.\n" ++
  "Simulate a conversation with a public relationship representative regarding the issue provided in a backstory. Do not break character." ++
  "Your responses should be concise and directly address the conversation flow. Use a natural, causal language to make conversation more realistic. \n"

/-- The `role: text` lines of the history block. -/
def historyLines : List ChatEntry → String
  | [] => ""
  | e :: rest => e.role ++ ": " ++ e.text ++ "\n" ++ historyLines rest

/-- The conversation-history block of `_construct_prompt` (emitted only
when the history is nonempty). -/
def historyBlock (h : List ChatEntry) : String :=
  if h.isEmpty then ""
  else "\n--- Conversation History ---\n" ++ historyLines h ++ "--------------------------\n"

/-- The latest customer-service line of `_construct_prompt` (emitted
only when the argument is truthy, i.e. nonempty). -/
def lastBlock (last : String) : String :=
  if last.isEmpty then "" else "Customer Service: " ++ last ++ "\n"

/-- `GeminiChatSession._construct_prompt` (lines 102-153).  Besides the
prompt text it returns the session, because the directive selection
moves `current_question_index` in place. -/
def Session.construct_prompt (s : Session) (last : String) : String × Session :=
  let d := constructDirective s.goal_questions s.goals_answered s.current_question_index
  (promptHeader s ++ historyBlock s.chat_history ++ lastBlock last ++ d.1 ++
      "Your response (as the customer):",
    { s with current_question_index := d.2 })

/-- `GeminiChatSession.send_message` (lines 168-199): append the human
message, update the goal flags from it, build the prompt (moving the
cursor), call the oracle, append the reply under the persona's role. -/
def Session.send_message (s : Session) (msg : String) (hasKey : Bool) (outcome : OracleResult) :
    Session × TurnResult :=
  let s1 : Session := { s with chat_history := s.chat_history ++ [⟨"Customer Service", msg⟩] }
  let s2 : Session :=
    { s1 with goals_answered := update_goal_status s1.goal_questions s1.goals_answered msg }
  let p := s2.construct_prompt msg
  let ai := call_gemini_api hasKey outcome p.1
  let s4 : Session := { p.2 with chat_history := p.2.chat_history ++ [⟨p.2.name, ai⟩] }
  (s4, ⟨ai, s4.goals_answered⟩)

/-- One session operation, as performed by the HTTP layer: the opening
call or a `send_message` turn, at an arbitrary oracle outcome. -/
inductive SessionStep : Session → Session → Prop
  | start (s : Session) (hasKey : Bool) (o : OracleResult) :
      SessionStep s (s.start_new_chat_session hasKey o).1
  | send (s : Session) (msg : String) (hasKey : Bool) (o : OracleResult) :
      SessionStep s (s.send_message msg hasKey o).1

/-- Session states reachable from a freshly constructed session by
session operations. -/
inductive ReachableSession : Session → Prop
  | init (sid : String) (actor : ChatActor) : ReachableSession (Session.init sid actor)
  | step {s s' : Session} : ReachableSession s → SessionStep s s' → ReachableSession s'

/-! ## HTTP layer (src/main.py) -/

/-- An HTTP error response, as raised with `HTTPException`. -/
structure HTTPErr where
  status : Nat
  detail : String
deriving DecidableEq

/-- A stored scenario, keeping only the parts the chat endpoints read:
the `chatActor` value when the key is present. -/
structure Scenario where
  chatActor : Option ChatActor
deriving DecidableEq

/-- Body of the `/chat` request (src/main.py `ChatRequest`). -/
structure ChatRequest where
  message : String
  session_id : String
  scenario_id : String

/-- Body of the `/start_chat` request (src/main.py `StartChatRequest`). -/
structure StartChatRequest where
  session_id : String
  scenario_id : String

/-- The `/chat` endpoint (src/main.py lines 134-159): a 400 error when
the session id is unknown is raised before the `try` block, so it
reaches the client; otherwise the session's `send_message` runs and its
`ai_response` is returned. -/
def chat (chat_sessions : List (String × Session)) (req : ChatRequest)
    (hasKey : Bool) (o : OracleResult) : Except HTTPErr String :=
  match chat_sessions.find? fun p => p.1 == req.session_id with
  | none => Except.error ⟨400, "Chat session not found. Please start a new chat."⟩
  | some p => Except.ok ((p.2.send_message req.message hasKey o).2.ai_response)

/-- The `try` block of the `/start_chat` endpoint (src/main.py lines
166-192): unknown scenario raises a 404, a scenario without `chatActor`
raises a 400, otherwise a fresh session is created and started. -/
def start_chat_body (scenarios_data : List (String × Scenario)) (req : StartChatRequest)
    (hasKey : Bool) (o : OracleResult) : Except HTTPErr String :=
  match scenarios_data.find? fun p => p.1 == req.scenario_id with
  | none => Except.error ⟨404, "Scenario not found."⟩
  | some p =>
    match p.2.chatActor with
    | none => Except.error ⟨400, "Invalid scenario data. 'chatActor' key is missing."⟩
    | some actor =>
      Except.ok (((Session.init req.session_id actor).start_new_chat_session hasKey o).2.ai_response)

/-- Python `str(HTTPException)` as used in the 500 detail message. -/
def httpExceptionStr (e : HTTPErr) : String := toString e.status ++ ": " ++ e.detail

/-- The `/start_chat` endpoint (src/main.py lines 166-192): the whole
body sits in a `try` whose `except Exception` converts any raised
exception — `HTTPException` included, since it subclasses `Exception` —
into a 500 response. -/
def start_chat (scenarios_data : List (String × Scenario)) (req : StartChatRequest)
    (hasKey : Bool) (o : OracleResult) : Except HTTPErr String :=
  match start_chat_body scenarios_data req hasKey o with
  | Except.ok r => Except.ok r
  | Except.error e =>
    Except.error ⟨500, "Failed to start chat session: " ++ httpExceptionStr e⟩

/-! ## Scenario reload (src/main.py `reload_scenarios`, lines 38-54) -/

/-- One record of the parsed scenarios document: the value of its `id`
key when present, and an abstract tag standing for the rest of the
record's content. -/
structure JRecord where
  rid : Option String
  body : Nat
deriving DecidableEq

/-- Outcome of opening and parsing the backing document:
`FileNotFoundError`, `json.JSONDecodeError`, or a parsed list of
records. -/
inductive DocRead where
  | fileNotFound
  | jsonDecodeError
  | ok (records : List JRecord)
deriving DecidableEq

/-- Python dict assignment `d[k] = v`: replace in place when the key is
present, append otherwise. -/
def dictInsert (m : List (String × JRecord)) (k : String) (v : JRecord) :
    List (String × JRecord) :=
  match m with
  | [] => [(k, v)]
  | (k', v') :: t => if k' == k then (k, v) :: t else (k', v') :: dictInsert t k v

/-- The insertion loop of `reload_scenarios` after `scenarios_data.clear()`:
`scenarios_data[scenario['id']] = scenario` for each record.  A record
without an `id` key raises `KeyError` (not caught by the function), and
the dict keeps whatever was inserted so far; the boolean reports whether
the loop raised. -/
def reloadLoop (m : List (String × JRecord)) : List JRecord → List (String × JRecord) × Bool
  | [] => (m, false)
  | r :: rs =>
    match r.rid with
    | some k => reloadLoop (dictInsert m k r) rs
    | none => (m, true)

/-- `reload_scenarios` (src/main.py lines 38-54): on `FileNotFoundError`
or `json.JSONDecodeError` the mapping is left as it was (the handlers
only print); on a parsed document the mapping is cleared and refilled
record by record.  Returns the mapping afterwards and whether an
uncaught exception escaped. -/
def reload_scenarios (old : List (String × JRecord)) (doc : DocRead) :
    List (String × JRecord) × Bool :=
  match doc with
  | DocRead.fileNotFound => (old, false)
  | DocRead.jsonDecodeError => (old, false)
  | DocRead.ok records => reloadLoop [] records

/-- Modelled from the spec: "fully replaces the in-memory mapping with
the records of the backing document keyed by id" — the mapping holding
every record of the document under its id. -/
def specKeyedMap (l : List JRecord) : List (String × JRecord) :=
  l.foldl (fun m r => dictInsert m (r.rid.getD ("")) r) []

/-! ## Concrete inputs used by counterexamples and witnesses -/

/-- A chat actor with one goal question, used for concrete evaluations. -/
def refundActor : ChatActor where
  customerName := "Alex"
  backstory := "Bought a faulty blender"
  tone := "polite"
  goalQuestions := ["What is the refund policy?"]

/-- A session pursuing one goal question, no goal answered yet. -/
def sessionRefund : Session := Session.init ("s1") refundActor

/-- A session whose only goal flag is already true. -/
def sessionDone : Session :=
  { sessionRefund with goals_answered := [true] }

/-- A record carrying an `id` key. -/
def recA : JRecord := ⟨some ("a"), 1⟩

/-- A record missing its `id` key. -/
def recNoId : JRecord := ⟨none, 2⟩

/-- A pre-reload scenario mapping with one entry. -/
def oldMap : List (String × JRecord) := [(("old"), ⟨some ("old"), 0⟩)]

/-- A parsed document whose second record lacks an `id` key. -/
def badDoc : DocRead := DocRead.ok [recA, recNoId]

/-! ## Helper lemmas about the goal-flag update -/

theorem updateFrom_length (msg : String) (goals : List String) :
    ∀ (n : Nat) (flags : List Bool), (updateFrom msg goals n flags).length = flags.length := by
  intro n flags
  induction flags generalizing n with
  | nil => rfl
  | cons a rest ih => simp [updateFrom, ih]

theorem updateFrom_get? (msg : String) (goals : List String) :
    ∀ (flags : List Bool) (n i : Nat),
      (updateFrom msg goals n flags).get? i =
        (flags.get? i).map fun a => a || goalMatches (goals.getD (n + i) ("")) msg := by
  intro flags
  induction flags with
  | nil => intro n i; rfl
  | cons a rest ih =>
    intro n i
    cases i with
    | zero => simp [updateFrom]
    | succ j =>
      have harith : n + 1 + j = n + (j + 1) := by omega
      simp only [updateFrom, List.get?_cons_succ, ih (n + 1) j, harith]

theorem updateFrom_mono (msg : String) (goals : List String) (flags : List Bool) (n i : Nat)
    (h : flags.get? i = some true) :
    (updateFrom msg goals n flags).get? i = some true := by
  rw [updateFrom_get?, h]
  simp

theorem updateFrom_allTrue (msg : String) (goals : List String) :
    ∀ (n : Nat) (flags : List Bool), (∀ b ∈ flags, b = true) →
      ∀ b ∈ updateFrom msg goals n flags, b = true := by
  intro n flags
  induction flags generalizing n with
  | nil => intro _ b hb; cases hb
  | cons a rest ih =>
    intro h b hb
    simp only [updateFrom, List.mem_cons] at hb
    rcases hb with h1 | h1
    · rw [h1, h a (List.mem_cons_self a rest)]
      simp
    · exact ih (n + 1) (fun c hc => h c (List.mem_cons_of_mem a hc)) b h1

/-! ## Helper lemmas about the first-unanswered search -/

theorem firstUnanswered_get (flags : List Bool) (i : Nat)
    (h : firstUnanswered flags = some i) : flags.get? i = some false := by
  induction flags generalizing i with
  | nil => simp [firstUnanswered] at h
  | cons a rest ih =>
    cases a with
    | false =>
      simp only [firstUnanswered, Option.some.injEq] at h
      subst h
      rfl
    | true =>
      simp only [firstUnanswered, Option.map_eq_some'] at h
      obtain ⟨j, hj, hi⟩ := h
      subst hi
      simpa using ih j hj

theorem firstUnanswered_before (flags : List Bool) (i : Nat)
    (h : firstUnanswered flags = some i) :
    ∀ j, j < i → flags.get? j = some true := by
  induction flags generalizing i with
  | nil => intro j hj; simp [firstUnanswered] at h
  | cons a rest ih =>
    cases a with
    | false =>
      simp only [firstUnanswered, Option.some.injEq] at h
      subst h
      intro j hj
      exact absurd hj (Nat.not_lt_zero j)
    | true =>
      simp only [firstUnanswered, Option.map_eq_some'] at h
      obtain ⟨k, hk, hi⟩ := h
      subst hi
      intro j hj
      cases j with
      | zero => rfl
      | succ m => simpa using ih k hk m (Nat.lt_of_succ_lt_succ hj)

/-! ## Helper lemmas about substring containment -/

theorem isPrefixOf_append_self (n b : List Char) : n.isPrefixOf (n ++ b) = true := by
  induction n with
  | nil => rw [List.nil_append]; cases b <;> rfl
  | cons c t ih => simp [List.isPrefixOf, ih]

theorem containsSub_of_isPrefixOf (n h : List Char) (hp : n.isPrefixOf h = true) :
    containsSub n h = true := by
  cases h with
  | nil =>
    cases n with
    | nil => rfl
    | cons c t => simp [List.isPrefixOf] at hp
  | cons c t => simp [containsSub, hp]

theorem containsSub_self_append (n b : List Char) : containsSub n (n ++ b) = true :=
  containsSub_of_isPrefixOf n (n ++ b) (isPrefixOf_append_self n b)

theorem containsSub_append_left (n h : List Char) (hc : containsSub n h = true) :
    ∀ a : List Char, containsSub n (a ++ h) = true := by
  intro a
  induction a with
  | nil => simpa using hc
  | cons c t ih =>
    rw [List.cons_append]
    simp [containsSub, ih]

/-! ## Cursor invariant of reachable sessions -/

/-- Invariant of reachable sessions: the flag list is parallel to the
goal-question list, and every flag strictly before the cursor is true. -/
def SessionInv (s : Session) : Prop :=
  s.goals_answered.length = s.goal_questions.length ∧
  ∀ j, j < s.current_question_index → s.goals_answered.get? j = some true

theorem constructDirective_cursor (goals : List String) (flags : List Bool) (idx : Nat)
    (hmono : ∀ j, j < idx → flags.get? j = some true) :
    idx ≤ (constructDirective goals flags idx).2 ∧
    ∀ j, j < (constructDirective goals flags idx).2 → flags.get? j = some true := by
  unfold constructDirective
  split
  · exact ⟨Nat.le_refl idx, hmono⟩
  · split
    · exact ⟨Nat.le_refl idx, hmono⟩
    · split
      next i hfu =>
        refine ⟨?_, fun j hj => firstUnanswered_before flags i hfu j hj⟩
        show idx ≤ i
        by_contra hlt
        push_neg at hlt
        have h1 := hmono i hlt
        have h2 := firstUnanswered_get flags i hfu
        rw [h1] at h2
        simp at h2
      next hfu => exact ⟨Nat.le_refl idx, hmono⟩

theorem sessionStep_inv {s s' : Session} (hinv : SessionInv s) (hstep : SessionStep s s') :
    SessionInv s' ∧ s.current_question_index ≤ s'.current_question_index := by
  obtain ⟨hlen, hmono⟩ := hinv
  cases hstep with
  | start k o => exact ⟨⟨hlen, hmono⟩, Nat.le_refl _⟩
  | send msg k o =>
    have hmono2 : ∀ j, j < s.current_question_index →
        (update_goal_status s.goal_questions s.goals_answered msg).get? j = some true :=
      fun j hj => updateFrom_mono msg s.goal_questions s.goals_answered 0 j (hmono j hj)
    have hcd := constructDirective_cursor s.goal_questions
      (update_goal_status s.goal_questions s.goals_answered msg) s.current_question_index hmono2
    refine ⟨⟨?_, ?_⟩, ?_⟩
    · show (update_goal_status s.goal_questions s.goals_answered msg).length =
        s.goal_questions.length
      rw [update_goal_status, updateFrom_length]
      exact hlen
    · exact hcd.2
    · exact hcd.1

theorem reachable_inv {s : Session} (h : ReachableSession s) : SessionInv s := by
  induction h with
  | init sid actor =>
    constructor
    · show (List.replicate actor.goalQuestions.length false).length = actor.goalQuestions.length
      exact List.length_replicate _ _
    · intro j hj
      exact absurd hj (Nat.not_lt_zero j)
  | step hr hstep ih => exact (sessionStep_inv ih hstep).1

/-! ## Closing-directive lemmas -/

theorem constructDirective_allTrue (goals : List String) (flags : List Bool) (idx : Nat)
    (h : ∀ b ∈ flags, b = true) :
    constructDirective goals flags idx = (closingDirective, idx) := by
  have hempty : (((goals.zip flags).filter fun p => !p.2).map Prod.fst).isEmpty = true := by
    rw [List.isEmpty_iff, List.map_eq_nil_iff, List.filter_eq_nil_iff]
    intro p hp
    have hy := h p.2 (List.of_mem_zip hp).2
    simp [hy]
  unfold constructDirective
  rw [if_pos hempty]

theorem closing_ne_askDirective (q : String) : closingDirective ≠ askDirective q := by
  intro hEq
  have h2 := congrArg (fun s => s.data.get? 18) hEq
  simp only [askDirective, String.data_append] at h2
  rw [List.get?_append (show 18 < askHead.data.length by decide)] at h2
  exact absurd h2 (by decide)

theorem call_gemini_api_nonempty (k : Bool) (o : OracleResult) (p : String)
    (h : k = false ∨ o = OracleResult.failure) : call_gemini_api k o p ≠ ("") := by
  rcases h with h | h
  · subst h
    show apiKeyMissingMessage ≠ ("")
    decide
  · subst h
    cases k with
    | false =>
      show apiKeyMissingMessage ≠ ("")
      decide
    | true =>
      show fallbackMessage ≠ ("")
      decide

theorem reloadLoop_all_ids (l : List JRecord) :
    ∀ m, (∀ r ∈ l, r.rid ≠ none) →
      reloadLoop m l = (l.foldl (fun m r => dictInsert m (r.rid.getD ("")) r) m, false) := by
  induction l with
  | nil => intro m _; rfl
  | cons r rs ih =>
    intro m h
    have hr := h r (List.mem_cons_self r rs)
    cases hrid : r.rid with
    | none => exact absurd hrid hr
    | some k =>
      have h2 := ih (dictInsert m k r) (fun x hx => h x (List.mem_cons_of_mem r hx))
      simp only [reloadLoop, hrid, List.foldl_cons, Option.getD_some, h2]

theorem reloadLoop_stops (bad : JRecord) (rest : List JRecord) (hbad : bad.rid = none)
    (good : List JRecord) :
    ∀ m, (∀ r ∈ good, r.rid ≠ none) →
      reloadLoop m (good ++ bad :: rest) =
        (good.foldl (fun m r => dictInsert m (r.rid.getD ("")) r) m, true) := by
  induction good with
  | nil =>
    intro m _
    simp only [List.nil_append, reloadLoop, hbad, List.foldl_nil]
  | cons r rs ih =>
    intro m h
    have hr := h r (List.mem_cons_self r rs)
    cases hrid : r.rid with
    | none => exact absurd hrid hr
    | some k =>
      have h2 := ih (dictInsert m k r) (fun x hx => h x (List.mem_cons_of_mem r hx))
      simp only [List.cons_append, reloadLoop, hrid, List.foldl_cons, Option.getD_some]
      exact h2

theorem send_message_ai_response (s : Session) (msg : String) (k : Bool) (o : OracleResult) :
    ∃ p, (s.send_message msg k o).2.ai_response = call_gemini_api k o p :=
  ⟨(({ s with
      chat_history := s.chat_history ++ [⟨("Customer Service"), msg⟩],
      goals_answered := update_goal_status s.goal_questions s.goals_answered msg
    } : Session).construct_prompt msg).1, rfl⟩

/-! ## Claim theorems -/

/-- C1: a human message passed to `send_message` that contains
(case-insensitively, as a substring) a whitespace-delimited word longer
than 3 characters of a goal question makes that goal's flag true; and no
session operation (`send_message`, `start_new_chat_session`, or
`_update_goal_status` itself) ever takes a flag from true back to
false. -/
theorem goal_flag_set_and_monotone :
    (∀ (s : Session) (msg : String) (k : Bool) (o : OracleResult) (i : Nat) (q : String)
        (w : List Char),
      s.goal_questions.get? i = some q →
      i < s.goals_answered.length →
      w ∈ splitWords (pyLower q) →
      3 < w.length →
      containsSub w (pyLower msg) = true →
      (s.send_message msg k o).1.goals_answered.get? i = some true ∧
      (s.send_message msg k o).2.goals_answered.get? i = some true) ∧
    (∀ (s : Session) (msg : String) (k : Bool) (o : OracleResult) (i : Nat),
      s.goals_answered.get? i = some true →
      (s.send_message msg k o).1.goals_answered.get? i = some true) ∧
    (∀ (s : Session) (k : Bool) (o : OracleResult) (i : Nat),
      s.goals_answered.get? i = some true →
      (s.start_new_chat_session k o).1.goals_answered.get? i = some true) ∧
    (∀ (goals : List String) (flags : List Bool) (msg : String) (i : Nat),
      flags.get? i = some true →
      (update_goal_status goals flags msg).get? i = some true) := by
  refine ⟨?_, ?_, ?_, ?_⟩
  · intro s msg k o i q w hq hi hw h3 hcont
    obtain ⟨a, ha⟩ : ∃ a, s.goals_answered.get? i = some a := by
      rw [List.get?_eq_get hi]
      exact ⟨_, rfl⟩
    have hmatch : goalMatches q msg = true := by
      unfold goalMatches
      rw [List.any_eq_true]
      refine ⟨w, hw, ?_⟩
      simp [h3, hcont]
    have hgetd : s.goal_questions.getD (0 + i) ("") = q := by
      rw [Nat.zero_add, List.getD_eq_get?, hq]
      rfl
    have key : (update_goal_status s.goal_questions s.goals_answered msg).get? i =
        some true := by
      rw [update_goal_status, updateFrom_get?, ha, Option.map_some', hgetd, hmatch]
      simp
    exact ⟨key, key⟩
  · intro s msg k o i h
    exact updateFrom_mono msg s.goal_questions s.goals_answered 0 i h
  · intro s k o i h
    exact h
  · intro goals flags msg i h
    exact updateFrom_mono msg goals flags 0 i h

/-- C1 witness: the example goal question matched by the word `refund`. -/
theorem goal_flag_set_and_monotone_witness :
    (sessionRefund.send_message ("Our refund policy allows 30 days") true
        (OracleResult.ok ("ok"))).1.goals_answered.get? 0 = some true ∧
    (sessionRefund.send_message ("Our refund policy allows 30 days") true
        (OracleResult.ok ("ok"))).2.goals_answered.get? 0 = some true :=
  goal_flag_set_and_monotone.1 sessionRefund ("Our refund policy allows 30 days") true
    (OracleResult.ok ("ok")) 0 ("What is the refund policy?") (String.data ("refund"))
    (by decide) (by decide) (by decide) (by decide) (by decide)

/-- C2 counterexample: from a session with one unanswered goal question,
`send_message ("refund")` under an oracle failure returns the fallback
string yet changes `goals_answered` — the flags are updated from the
human message before the oracle call, so they are not left unchanged on
oracle failure. -/
theorem send_failure_flags_changed_cex :
    (sessionRefund.send_message ("refund") true OracleResult.failure).2.ai_response =
      fallbackMessage ∧
    (sessionRefund.send_message ("refund") true OracleResult.failure).1.goals_answered ≠
      sessionRefund.goals_answered := by
  constructor
  · rfl
  · decide

/-- C2 amended: on oracle failure `send_message` returns the static
fallback string, and the resulting `goals_answered` equals the result of
the same call under any other oracle outcome — it is the message-driven
update of the previous flags, not the previous flags themselves. -/
theorem send_failure_fallback_and_flags :
    ∀ (s : Session) (msg : String) (k : Bool) (o : OracleResult),
      (s.send_message msg true OracleResult.failure).2.ai_response = fallbackMessage ∧
      (s.send_message msg true OracleResult.failure).1.goals_answered =
        (s.send_message msg k o).1.goals_answered ∧
      (s.send_message msg true OracleResult.failure).1.goals_answered =
        update_goal_status s.goal_questions s.goals_answered msg :=
  fun _ _ _ _ => ⟨rfl, rfl, rfl⟩

/-- C3: the oracle adapter converts every failure (missing API key, or a
raised model call) into a fixed non-empty string instead of propagating
it — non-raising is built into the embedding, the adapter being a total
function into `String` — and consequently `send_message` returns a
non-empty `ai_response` whenever the oracle fails. -/
theorem oracle_failure_fixed_nonempty :
    (∀ (k : Bool) (o : OracleResult) (p : String),
      k = false ∨ o = OracleResult.failure → call_gemini_api k o p ≠ ("")) ∧
    (∀ (o : OracleResult) (p : String), call_gemini_api false o p = apiKeyMissingMessage) ∧
    (∀ (p : String), call_gemini_api true OracleResult.failure p = fallbackMessage) ∧
    (∀ (s : Session) (msg : String) (k : Bool) (o : OracleResult),
      k = false ∨ o = OracleResult.failure →
      (s.send_message msg k o).2.ai_response ≠ ("")) := by
  refine ⟨fun k o p h => call_gemini_api_nonempty k o p h, fun o p => rfl, fun p => rfl, ?_⟩
  intro s msg k o h
  obtain ⟨p, hp⟩ := send_message_ai_response s msg k o
  rw [hp]
  exact call_gemini_api_nonempty k o p h

/-- C3 witness: a failing call and a keyless `send_message` both answer a
non-empty string. -/
theorem oracle_failure_fixed_nonempty_witness :
    call_gemini_api true OracleResult.failure ("p") ≠ ("") ∧
    (sessionRefund.send_message ("hello") false (OracleResult.ok ("x"))).2.ai_response ≠
      ("") :=
  ⟨oracle_failure_fixed_nonempty.1 true OracleResult.failure ("p") (Or.inr rfl),
   oracle_failure_fixed_nonempty.2.2.2 sessionRefund ("hello") false (OracleResult.ok ("x"))
     (Or.inl rfl)⟩

/-- C4: across every sequence of session operations from a freshly
constructed session, the cursor `current_question_index` never
decreases. -/
theorem cursor_never_decreases :
    ∀ (s s' : Session), ReachableSession s → SessionStep s s' →
      s.current_question_index ≤ s'.current_question_index :=
  fun _ _ hr hstep => (sessionStep_inv (reachable_inv hr) hstep).2

/-- C4 witness: one `send_message` step from a fresh session. -/
theorem cursor_never_decreases_witness :
    sessionRefund.current_question_index ≤
      (sessionRefund.send_message ("hi") true (OracleResult.ok ("ok"))).1.current_question_index :=
  cursor_never_decreases sessionRefund _ (ReachableSession.init ("s1") refundActor)
    (SessionStep.send sessionRefund ("hi") true (OracleResult.ok ("ok")))

/-- C5: the flag list is created with the goal-question list's length,
no operation changes the length of either list, and the equality holds
in every reachable session state. -/
theorem goal_lists_length_invariant :
    (∀ (sid : String) (actor : ChatActor),
      (Session.init sid actor).goals_answered.length =
        (Session.init sid actor).goal_questions.length) ∧
    (∀ (s s' : Session), SessionStep s s' →
      s'.goal_questions = s.goal_questions ∧
      s'.goals_answered.length = s.goals_answered.length) ∧
    (∀ (goals : List String) (flags : List Bool) (msg : String),
      (update_goal_status goals flags msg).length = flags.length) ∧
    (∀ (s : Session), ReachableSession s →
      s.goals_answered.length = s.goal_questions.length) := by
  refine ⟨?_, ?_, ?_, ?_⟩
  · intro sid actor
    exact List.length_replicate _ _
  · intro s s' hstep
    cases hstep with
    | start k o => exact ⟨rfl, rfl⟩
    | send msg k o => exact ⟨rfl, updateFrom_length msg s.goal_questions 0 s.goals_answered⟩
  · intro goals flags msg
    exact updateFrom_length msg goals 0 flags
  · intro s hr
    exact (reachable_inv hr).1

/-- C5 witness: the invariant at a concrete fresh session. -/
theorem goal_lists_length_invariant_witness :
    sessionRefund.goals_answered.length = sessionRefund.goal_questions.length :=
  goal_lists_length_invariant.2.2.2 sessionRefund (ReachableSession.init ("s1") refundActor)

/-- C6: when every goal flag is true, the assembled prompt is the
header, history and latest-message blocks followed by the closing
directive; the directive component is never the "Ask the question"
goal-pursuit directive; the cursor is unchanged; and all flags remain
true under any further `send_message`, so the same holds for every
subsequent call. -/
theorem all_flags_closing_prompt :
    ∀ (s : Session) (last : String), (∀ b ∈ s.goals_answered, b = true) →
      ((s.construct_prompt last).1 =
        promptHeader s ++ historyBlock s.chat_history ++ lastBlock last ++
          closingDirective ++ ("Your response (as the customer):")) ∧
      ((s.construct_prompt last).2 = s) ∧
      (∀ q, (constructDirective s.goal_questions s.goals_answered
        s.current_question_index).1 ≠ askDirective q) ∧
      (containsSub closingDirective.data ((s.construct_prompt last).1).data = true) ∧
      (∀ (msg : String) (k : Bool) (o : OracleResult),
        ∀ b ∈ (s.send_message msg k o).1.goals_answered, b = true) := by
  intro s last h
  have hcd := constructDirective_allTrue s.goal_questions s.goals_answered
    s.current_question_index h
  have h1 : (s.construct_prompt last).1 =
      promptHeader s ++ historyBlock s.chat_history ++ lastBlock last ++
        closingDirective ++ ("Your response (as the customer):") := by
    show promptHeader s ++ historyBlock s.chat_history ++ lastBlock last ++
        (constructDirective s.goal_questions s.goals_answered
          s.current_question_index).1 ++ ("Your response (as the customer):") = _
    rw [hcd]
  have h2 : (s.construct_prompt last).2 = s := by
    show { s with current_question_index :=
      (constructDirective s.goal_questions s.goals_answered
        s.current_question_index).2 } = s
    rw [hcd]
  have h3 : ∀ q, (constructDirective s.goal_questions s.goals_answered
      s.current_question_index).1 ≠ askDirective q := by
    intro q
    rw [hcd]
    exact closing_ne_askDirective q
  have h4 : containsSub closingDirective.data ((s.construct_prompt last).1).data = true := by
    rw [h1]
    simp only [String.data_append, List.append_assoc]
    exact containsSub_append_left _ _
      (containsSub_append_left _ _
        (containsSub_append_left _ _ (containsSub_self_append _ _) _) _) _
  have h5 : ∀ (msg : String) (k : Bool) (o : OracleResult),
      ∀ b ∈ (s.send_message msg k o).1.goals_answered, b = true := by
    intro msg k o b hb
    exact updateFrom_allTrue msg s.goal_questions 0 s.goals_answered h b hb
  exact ⟨h1, h2, h3, h4, h5⟩

/-- C6 witness: a session whose single goal flag is true gets the
closing prompt. -/
theorem all_flags_closing_prompt_witness :
    (sessionDone.construct_prompt ("thanks")).1 =
      promptHeader sessionDone ++ historyBlock sessionDone.chat_history ++
        lastBlock ("thanks") ++ closingDirective ++
        ("Your response (as the customer):") :=
  (all_flags_closing_prompt sessionDone ("thanks")
    (fun _ hb => List.eq_of_mem_singleton hb)).1

/-- C7: starting a freshly constructed session appends exactly one
transcript entry, under the persona's customer name, holding the
oracle's reply to the opening prompt; the transcript was empty before,
so no human-authored entry precedes it. -/
theorem start_session_single_persona_entry :
    ∀ (sid : String) (actor : ChatActor) (k : Bool) (o : OracleResult),
      ((Session.init sid actor).start_new_chat_session k o).1.chat_history =
        [⟨actor.customerName,
          call_gemini_api k o (initial_prompt (Session.init sid actor))⟩] ∧
      ((Session.init sid actor).start_new_chat_session k o).1.chat_history.length = 1 :=
  fun _ _ _ _ => ⟨rfl, rfl⟩

/-- C8: `/chat` with an unknown session id does answer 400 as claimed,
but `/start_chat` with an unknown scenario id answers 500, not 404: the
404 `HTTPException` the code explicitly raises inside the `try` block is
caught by the blanket `except Exception` handler and re-raised as a 500
server error. -/
theorem unknown_ids_http_status :
    chat [] ⟨("hi"), ("sess-1"), ("scn-1")⟩ true (OracleResult.ok ("x")) =
      Except.error ⟨400, ("Chat session not found. Please start a new chat.")⟩ ∧
    start_chat [] ⟨("sess-1"), ("scn-1")⟩ true (OracleResult.ok ("x")) =
      Except.error ⟨500, ("Failed to start chat session: 404: Scenario not found.")⟩ :=
  ⟨rfl, rfl⟩

/-- C9 counterexample: reloading a parsed document whose second record
lacks an `id` key leaves the mapping holding only the first record —
neither the old mapping nor a full keyed replacement — so a
partially-updated mapping is observable after the uncaught `KeyError`. -/
theorem reload_partial_update_cex :
    ¬ ((reload_scenarios oldMap badDoc).1 = oldMap ∨
       ∃ l, badDoc = DocRead.ok l ∧ (∀ r ∈ l, r.rid ≠ none) ∧
         (reload_scenarios oldMap badDoc).1 = specKeyedMap l) := by
  intro h
  rcases h with h | ⟨l, hl, hall, _⟩
  · exact absurd h (by decide)
  · have hl2 : l = [recA, recNoId] := by
      have hb : DocRead.ok [recA, recNoId] = DocRead.ok l := hl
      exact (DocRead.ok.inj hb).symm
    have hbad := hall recNoId (by rw [hl2]; decide)
    exact hbad rfl

/-- C9 amended: on a read or parse failure the mapping is unchanged and
nothing escapes; on a parsed document all of whose records carry an `id`
key the mapping is fully replaced by the records keyed by id; but on a
parsed document with a record lacking `id` the loop raises `KeyError`
after the clear, leaving the mapping holding exactly the records before
the offending one — an observable partially-updated mapping. -/
theorem reload_scenarios_characterized :
    (∀ old : List (String × JRecord),
      reload_scenarios old DocRead.fileNotFound = (old, false) ∧
      reload_scenarios old DocRead.jsonDecodeError = (old, false)) ∧
    (∀ (old : List (String × JRecord)) (l : List JRecord),
      (∀ r ∈ l, r.rid ≠ none) →
      reload_scenarios old (DocRead.ok l) = (specKeyedMap l, false)) ∧
    (∀ (old : List (String × JRecord)) (good : List JRecord) (bad : JRecord)
        (rest : List JRecord),
      (∀ r ∈ good, r.rid ≠ none) → bad.rid = none →
      reload_scenarios old (DocRead.ok (good ++ bad :: rest)) =
        (good.foldl (fun m r => dictInsert m (r.rid.getD ("")) r) [], true)) := by
  refine ⟨fun old => ⟨rfl, rfl⟩, ?_, ?_⟩
  · intro old l h
    exact reloadLoop_all_ids l [] h
  · intro old good bad rest h hbad
    exact reloadLoop_stops bad rest hbad good [] h

/-- C9 witness: a fully-identified document fully replaces the old
mapping. -/
theorem reload_scenarios_characterized_witness :
    reload_scenarios oldMap (DocRead.ok [recA]) = (specKeyedMap [recA], false) :=
  reload_scenarios_characterized.2.1 oldMap [recA] (by decide)

/-- C10: `goals_answered` produced by `send_message` does not depend on
the oracle's reply — the same state and human message give equal flag
lists under any two oracle outcomes (different reply texts, failure
fallback, or missing key), both in the returned dict and in the updated
session. -/
theorem goals_independent_of_oracle :
    ∀ (s : Session) (msg : String) (k1 k2 : Bool) (o1 o2 : OracleResult),
      (s.send_message msg k1 o1).2.goals_answered =
        (s.send_message msg k2 o2).2.goals_answered ∧
      (s.send_message msg k1 o1).1.goals_answered =
        (s.send_message msg k2 o2).1.goals_answered :=
  fun _ _ _ _ _ _ => ⟨rfl, rfl⟩

end PRSim
